import Mathlib

/-!
Verification of the BrewtifulData scraping/analysis pipeline.

This file gives a shallow embedding of the pipeline's pure logic:

* the CSV batch/resume ledger (`CsvManager` from `src/entities/csv_ent.py`,
  with file contents modelled as parsed CSV row lists indexed by path),
* the per-item HTML extraction (`Beer.from_html` from `src/entities/beer.py`),
* the per-item row assembly and image lifecycle of the two pipeline loops
  (`src/core/scrape_and_analyze.py` `run` and
  `src/scrape_and_analyze.py` `run_scraping_and_analysis`),
* the batch loop with its page cursor and skip logic,
* the model-response fallback colour parser and retry loop of
  `src/llava_analysis.py` / `src/core/llava_analysis.py`.

File systems are modelled as maps from path to the parsed CSV contents
(`Option (List Row)`), writes become functional updates, and Python
exceptions become explicit outcome parameters where a claim quantifies
over them.
-/

namespace Brewtiful

/-- One parsed CSV record (the list a `csv.writer` row round-trips to). -/
abbrev Row := List String

/-- File-system state seen through the CSV layer: each path is either absent
(`none`) or holds a list of parsed CSV rows. -/
abbrev FS := String → Option (List Row)

/-- Embedding of `os.path.join` for the relative paths used by `src/config.py`. -/
def joinPath (dir name : String) : String := dir ++ "/" ++ name

/-- Constant `OUTPUT_DIR` from `src/config.py`. -/
def OUTPUT_DIR : String := "outputs"

/-- Constant `PAGINATED_DIR` from `src/core/config.py`, the join of `OUTPUT_DIR` and the literal `paginated`. -/
def PAGINATED_DIR : String := joinPath OUTPUT_DIR "paginated"

/-- Constant `BEER_IMAGE_DIR` from `src/core/config.py`. -/
def BEER_IMAGE_DIR : String := joinPath OUTPUT_DIR "beer_images"

/-- Constant `MASTER_CSV` from `src/config.py`. -/
def MASTER_CSV : String := joinPath OUTPUT_DIR "master.csv"

/-- Constant `START_PAGE` from `src/config.py`. -/
def START_PAGE : Nat := 1

/-- Constant `MASTER_HEADER` from `src/config.py`. -/
def MASTER_HEADER : Row :=
  ["Name", "Brewery", "Price", "Rating", "ABV", "Style", "Image_File", "URL",
   "Country", "Label_Color", "Text_Color", "Analysis_Error"]

/-- Class `CsvManager` from `src/entities/csv_ent.py`: holds the header row. -/
structure CsvManager where
  header : Row

/-- Method `CsvManager.batch_csv_path`: the join of the paginated directory with the batch file name built from the start and end page numbers. -/
def CsvManager.batch_csv_path (m : CsvManager) (paginated_dir : String)
    (batch_start batch_end : Nat) : String :=
  joinPath paginated_dir
    ("beers_" ++ toString batch_start ++ "_" ++ toString batch_end ++ ".csv")

/-- Method `CsvManager.is_complete`: `False` if the file does not exist, otherwise
read all CSV rows and return `len(rows) > 1`. -/
def CsvManager.is_complete (m : CsvManager) (fs : FS) (batch_csv : String) : Bool :=
  match fs batch_csv with
  | none => false
  | some rows => decide (1 < rows.length)

/-- Method `CsvManager.write_batch`: open the batch file in mode `"w"` (truncating)
and write the header row followed by all batch rows. -/
def CsvManager.write_batch (m : CsvManager) (fs : FS) (batch_csv : String)
    (batch_rows : List Row) : FS :=
  fun q => if q = batch_csv then some (m.header :: batch_rows) else fs q

/-- Method `CsvManager.append_master`: open the master file in mode `"a"`; write the
header first only when the file did not exist at call time, then append
the batch rows. -/
def CsvManager.append_master (m : CsvManager) (fs : FS) (master_csv : String)
    (batch_rows : List Row) : FS :=
  match fs master_csv with
  | some prev => fun q => if q = master_csv then some (prev ++ batch_rows) else fs q
  | none => fun q => if q = master_csv then some (m.header :: batch_rows) else fs q

/-- Method `CsvManager.init_master_csv`: create the master file with just the header
row when it does not exist yet; otherwise leave it untouched. -/
def CsvManager.init_master_csv (m : CsvManager) (fs : FS) (master_csv : String) : FS :=
  match fs master_csv with
  | some _ => fs
  | none => fun q => if q = master_csv then some [m.header] else fs q

/-- The module-level `csv_manager = CsvManager(MASTER_HEADER)` instance of
`src/core/scrape_and_analyze.py`. -/
def csv_manager : CsvManager := ⟨MASTER_HEADER⟩

/-- Point update of a file-system state: used to describe an arbitrary state
in which one designated path has a known content. -/
def setFile (fs : FS) (p : String) (v : Option (List Row)) : FS :=
  fun q => if q = p then v else fs q

/-- Row count of an optional file content (0 for an absent file). -/
def optLen : Option (List Row) → Nat
  | none => 0
  | some rows => rows.length

/-- Iterated `append_master` against one master path, together with the number
of calls that wrote a header row (a call writes the header exactly when the
file was absent at its call time). -/
def appendAllCount (m : CsvManager) (master_csv : String) :
    List (List Row) → FS → FS × Nat
  | [], fs => (fs, 0)
  | rows :: rest, fs =>
    let wroteHeader := (fs master_csv).isNone
    let next := appendAllCount m master_csv rest (m.append_master fs master_csv rows)
    (next.1, (if wroteHeader then 1 else 0) + next.2)

/-- C1: `is_complete` is `False` for a non-existent file and for a file
holding only the header row, and in general a file with `rows` parsed CSV
rows is complete exactly when it has strictly more than one row (so a
zero-row file and a header-only file are both incomplete, and a header
plus at least one data row is complete). -/
theorem C1_is_complete_cases (fs : FS) (p : String) (rows : List Row) :
    csv_manager.is_complete (setFile fs p none) p = false
    ∧ csv_manager.is_complete (setFile fs p (some [csv_manager.header])) p = false
    ∧ csv_manager.is_complete (setFile fs p (some rows)) p = decide (1 < rows.length) := by
  refine ⟨?_, ?_, ?_⟩ <;> simp [CsvManager.is_complete, setFile]

/-- C2: `write_batch` overwrites. Writing rows `r1` and then rows `r2` to the
same path yields exactly the same file system as writing `r2` alone, and
the file at the path holds exactly the header followed by `r2`; nothing of
`r1` remains. -/
theorem C2_write_batch_overwrites (fs : FS) (p : String) (r1 r2 : List Row) :
    csv_manager.write_batch (csv_manager.write_batch fs p r1) p r2
      = csv_manager.write_batch fs p r2
    ∧ (csv_manager.write_batch (csv_manager.write_batch fs p r1) p r2) p
      = some (MASTER_HEADER :: r2) := by
  constructor
  · funext q
    by_cases h : q = p <;> simp [CsvManager.write_batch, h]
  · simp [CsvManager.write_batch, csv_manager]

/-- Helper: once the master file exists, further `append_master` calls only
append the given rows and never write another header. -/
lemma appendAllCount_of_exists (m : CsvManager) (p : String) :
    ∀ (rss : List (List Row)) (fs : FS) (prev : List Row), fs p = some prev →
      (appendAllCount m p rss fs).1 p = some (prev ++ rss.flatten)
      ∧ (appendAllCount m p rss fs).2 = 0 := by
  intro rss
  induction rss with
  | nil => intro fs prev h; simp [appendAllCount, h]
  | cons rows rest ih =>
    intro fs prev h
    have hmem : (m.append_master fs p rows) p = some (prev ++ rows) := by
      simp [CsvManager.append_master, h]
    obtain ⟨h1, h2⟩ := ih (m.append_master fs p rows) (prev ++ rows) hmem
    refine ⟨?_, ?_⟩
    · simp only [appendAllCount, h1, h, Option.isNone_some, List.flatten_cons,
        List.append_assoc]
    · simp only [appendAllCount, h2, h, Option.isNone_some, if_neg Bool.false_ne_true]

/-- C4: starting from a state where the master file is absent, a non-empty
sequence of `append_master` calls produces a file holding the header
followed by the concatenation of all appended row batches, with the header
written by exactly one call; and any single `append_master` call grows the
file's row count by at least the number of appended rows (monotone growth). -/
theorem C4_append_master_header_once (p : String) (r0 rs : List Row)
    (rss : List (List Row)) (fs fs2 : FS) :
    (appendAllCount csv_manager p (r0 :: rss) (setFile fs p none)).1 p
      = some (MASTER_HEADER :: (r0 :: rss).flatten)
    ∧ (appendAllCount csv_manager p (r0 :: rss) (setFile fs p none)).2 = 1
    ∧ optLen ((csv_manager.append_master fs2 p rs) p) ≥ optLen (fs2 p) + rs.length := by
  have h0 : (setFile fs p none) p = none := by simp [setFile]
  have hstep : (csv_manager.append_master (setFile fs p none) p r0) p
      = some (MASTER_HEADER :: r0) := by
    simp [CsvManager.append_master, h0, setFile, csv_manager]
  obtain ⟨h1, h2⟩ := appendAllCount_of_exists csv_manager p rss
    (csv_manager.append_master (setFile fs p none) p r0) (MASTER_HEADER :: r0) hstep
  refine ⟨?_, ?_, ?_⟩
  · simp only [appendAllCount, h1, List.flatten_cons, List.cons_append]
  · simp [appendAllCount, h2, h0]
  · cases h : fs2 p with
    | none => simp [CsvManager.append_master, h, optLen]
    | some prev => simp [CsvManager.append_master, h, optLen]

/-- Outcome of scraping one catalog page, as seen by the batch loop of
`src/core/scrape_and_analyze.py` `run` (identical structure in
`src/scrape_and_analyze.py` `run_scraping_and_analysis`):
`err` is a raised exception (the page-level `except ... continue`), `empty`
means no item containers were found (`if not beer_rows: break`), and
`found rows` means containers were found and `rows` is what the per-item
processing appended to the batch buffer for that page. -/
inductive PageOutcome where
  | err
  | empty
  | found (rows : List Row)

/-- The inner page loop of a batch: pages processed in order, an `err` page
is abandoned and the loop continues, an `empty` page breaks out of the
page loop, and `found` pages contribute their rows to the batch buffer. -/
def collectPages (oracle : Nat → PageOutcome) : List Nat → List Row
  | [] => []
  | p :: ps =>
    match oracle p with
    | .err => collectPages oracle ps
    | .empty => []
    | .found rows => rows ++ collectPages oracle ps

/-- One iteration of the outer batch loop: its page range, whether it was
skipped because its batch file was already complete, and the rows it
persisted (empty for a skipped batch). -/
structure BatchEvent where
  range : Nat × Nat
  skipped : Bool
  rows : List Row
deriving DecidableEq

/-- The `while page_num <= NUM_PAGES` loop of
`src/core/scrape_and_analyze.py` `run`: compute the batch range
(`batch_end = min(page_num + BATCH_SIZE - 1, NUM_PAGES)`), skip the batch
when its file is complete, otherwise collect the pages' rows, write the
batch file and append to the master file; in both cases set
`page_num = batch_end + 1`. The loop runs at most `num_pages` iterations,
so the explicit fuel `num_pages + 1` used below never runs out. -/
def runFuel (oracle : Nat → PageOutcome) (num_pages batch_size : Nat) :
    Nat → Nat → FS → FS × List BatchEvent
  | 0, _, fs => (fs, [])
  | fuel + 1, page_num, fs =>
    if page_num ≤ num_pages then
      let batch_end := min (page_num + batch_size - 1) num_pages
      let batch_csv := csv_manager.batch_csv_path PAGINATED_DIR page_num batch_end
      if csv_manager.is_complete fs batch_csv then
        let next := runFuel oracle num_pages batch_size fuel (batch_end + 1) fs
        (next.1, ⟨(page_num, batch_end), true, []⟩ :: next.2)
      else
        let batch_rows := collectPages oracle (List.range' page_num (batch_end + 1 - page_num))
        let fs1 := csv_manager.write_batch fs batch_csv batch_rows
        let fs2 := csv_manager.append_master fs1 MASTER_CSV batch_rows
        let next := runFuel oracle num_pages batch_size fuel (batch_end + 1) fs2
        (next.1, ⟨(page_num, batch_end), false, batch_rows⟩ :: next.2)
    else (fs, [])

/-- Function `run` from `src/core/scrape_and_analyze.py`: initialise the master CSV,
then run the batch loop from `START_PAGE`. -/
def run (oracle : Nat → PageOutcome) (num_pages batch_size : Nat) (fs : FS) :
    FS × List BatchEvent :=
  runFuel oracle num_pages batch_size (num_pages + 1)
    START_PAGE (csv_manager.init_master_csv fs MASTER_CSV)

/-- The sequence of `(batch_start, batch_end)` ranges the loop walks through
from a given page cursor, defined by the same cursor arithmetic as the loop. -/
def batchRangesFuel (num_pages batch_size : Nat) : Nat → Nat → List (Nat × Nat)
  | 0, _ => []
  | fuel + 1, page_num =>
    if page_num ≤ num_pages then
      (page_num, min (page_num + batch_size - 1) num_pages) ::
        batchRangesFuel num_pages batch_size fuel
          (min (page_num + batch_size - 1) num_pages + 1)
    else []

/-- The batch ranges of a full run from `START_PAGE`. -/
def batchRanges (num_pages batch_size : Nat) : List (Nat × Nat) :=
  batchRangesFuel num_pages batch_size (num_pages + 1) START_PAGE

/-- Helper: the ranges visited by the loop depend only on the cursor
arithmetic, not on the page oracle or the file-system state. -/
lemma runFuel_map_range (oracle : Nat → PageOutcome) (num_pages batch_size : Nat) :
    ∀ (fuel page_num : Nat) (fs : FS),
      (runFuel oracle num_pages batch_size fuel page_num fs).2.map BatchEvent.range
        = batchRangesFuel num_pages batch_size fuel page_num := by
  intro fuel
  induction fuel with
  | zero => intro page_num fs; simp [runFuel, batchRangesFuel]
  | succ fuel ih =>
    intro page_num fs
    by_cases hp : page_num ≤ num_pages
    · by_cases hc : csv_manager.is_complete fs
          (csv_manager.batch_csv_path PAGINATED_DIR page_num
            (min (page_num + batch_size - 1) num_pages)) = true
      · simp [runFuel, batchRangesFuel, hp, hc, ih]
      · simp [runFuel, batchRangesFuel, hp, hc, ih]
    · simp [runFuel, batchRangesFuel, hp]

/-- Helper: with a positive batch size, the ranges starting at `page_num`
tile exactly the pages `page_num .. num_pages`. -/
lemma batchRangesFuel_flatten (num_pages b : Nat) :
    ∀ (fuel page_num : Nat), num_pages + 1 ≤ fuel + page_num →
      (batchRangesFuel num_pages (b + 1) fuel page_num).flatMap
          (fun r => List.range' r.1 (r.2 + 1 - r.1))
        = List.range' page_num (num_pages + 1 - page_num) := by
  intro fuel
  induction fuel with
  | zero =>
    intro page_num hfuel
    rw [batchRangesFuel, Nat.sub_eq_zero_of_le (by omega)]
    simp
  | succ fuel ih =>
    intro page_num hfuel
    by_cases hp : page_num ≤ num_pages
    · set e := min (page_num + (b + 1) - 1) num_pages with he
      have hle : page_num ≤ e := le_min (by omega) hp
      have hmin : e ≤ num_pages := min_le_right _ _
      rw [batchRangesFuel, if_pos hp, List.flatMap_cons, ← he,
        ih (e + 1) (by omega)]
      have h1 : page_num + 1 * (e + 1 - page_num) = e + 1 := by omega
      have happ := List.range'_append page_num (e + 1 - page_num)
        (num_pages + 1 - (e + 1)) 1
      rw [h1] at happ
      rw [happ]
      have h2 : num_pages + 1 - (e + 1) + (e + 1 - page_num)
          = num_pages + 1 - page_num := by omega
      rw [h2]
    · rw [batchRangesFuel, if_neg hp, Nat.sub_eq_zero_of_le (by omega)]
      simp

/-- Helper: every visited range ends at `min (start + batch_size - 1, num_pages)`
and spans exactly `batch_size` pages unless clipped at `num_pages`. -/
lemma batchRangesFuel_spec (num_pages b : Nat) :
    ∀ (fuel page_num : Nat) (r : Nat × Nat),
      r ∈ batchRangesFuel num_pages (b + 1) fuel page_num →
      r.2 = min (r.1 + (b + 1) - 1) num_pages
      ∧ (r.2 + 1 - r.1 = b + 1 ∨ r.2 = num_pages) := by
  intro fuel
  induction fuel with
  | zero => intro page_num r hr; simp [batchRangesFuel] at hr
  | succ fuel ih =>
    intro page_num r hr
    rw [batchRangesFuel] at hr
    by_cases hp : page_num ≤ num_pages
    · rw [if_pos hp, List.mem_cons] at hr
      rcases hr with hr | hr
      · subst hr
        refine ⟨rfl, ?_⟩
        rcases le_or_lt (page_num + (b + 1) - 1) num_pages with h | h
        · left
          rw [min_eq_left h]
          omega
        · right
          exact min_eq_right (by omega)
      · exact ih _ r hr
    · rw [if_neg hp] at hr
      simp at hr

/-- Helper: the first visited range starts at the current page cursor. -/
lemma batchRangesFuel_head (num_pages batch_size : Nat) :
    ∀ (fuel page_num : Nat) (r : Nat × Nat),
      (batchRangesFuel num_pages batch_size fuel page_num).head? = some r →
      r.1 = page_num := by
  intro fuel
  cases fuel with
  | zero => intro page_num r hr; simp [batchRangesFuel] at hr
  | succ fuel =>
    intro page_num r hr
    rw [batchRangesFuel] at hr
    by_cases hp : page_num ≤ num_pages
    · rw [if_pos hp] at hr
      simp at hr
      rw [← hr]
    · rw [if_neg hp] at hr
      simp at hr

/-- Helper: consecutive visited ranges are contiguous: each range starts one
page past the previous range's end. -/
lemma batchRangesFuel_chain (num_pages batch_size : Nat) :
    ∀ (fuel page_num : Nat),
      List.Chain' (fun r s => s.1 = r.2 + 1)
        (batchRangesFuel num_pages batch_size fuel page_num) := by
  intro fuel
  induction fuel with
  | zero => intro page_num; simp [batchRangesFuel]
  | succ fuel ih =>
    intro page_num
    rw [batchRangesFuel]
    by_cases hp : page_num ≤ num_pages
    · rw [if_pos hp]
      refine List.chain'_cons'.mpr ⟨?_, ih _⟩
      intro s hs
      exact batchRangesFuel_head num_pages batch_size fuel _ s hs
    · rw [if_neg hp]
      exact List.chain'_nil

/-- C3: for total page count `n + 1 ≥ 1` and batch size `b + 1 ≥ 1`, the main
loop's sequence of batch ranges equals `batchRanges` for every page oracle
and every initial file system (so batch boundaries are independent of how
many items any page yielded, including empty pages); those ranges tile the
page interval `[1, n + 1]` exactly, consecutive ranges are contiguous (the
cursor always advances to one past the batch's last page), and every range
ends at `min (start + batch_size - 1, total)` — a span of exactly
`batch_size` pages unless clipped at the final page. -/
theorem C3_batch_partition (n b : Nat) (oracle : Nat → PageOutcome) (fs : FS) :
    ((run oracle (n + 1) (b + 1) fs).2.map BatchEvent.range) = batchRanges (n + 1) (b + 1)
    ∧ (batchRanges (n + 1) (b + 1)).flatMap (fun r => List.range' r.1 (r.2 + 1 - r.1))
        = List.range' 1 (n + 1)
    ∧ List.Chain' (fun r s => s.1 = r.2 + 1) (batchRanges (n + 1) (b + 1))
    ∧ ∀ r ∈ batchRanges (n + 1) (b + 1),
        r.2 = min (r.1 + (b + 1) - 1) (n + 1)
        ∧ (r.2 + 1 - r.1 = b + 1 ∨ r.2 = n + 1) := by
  refine ⟨?_, ?_, ?_, ?_⟩
  · exact runFuel_map_range oracle (n + 1) (b + 1) (n + 2) START_PAGE _
  · have h := batchRangesFuel_flatten (n + 1) b (n + 2) START_PAGE (by simp [START_PAGE])
    simpa [batchRanges, START_PAGE] using h
  · exact batchRangesFuel_chain (n + 1) (b + 1) (n + 2) START_PAGE
  · intro r hr
    exact batchRangesFuel_spec (n + 1) b (n + 2) START_PAGE r hr

/-- C3 witness: the partition behaviour at 5 total pages, batch size 2, an
all-empty page oracle and an empty file system, with the per-range
property instantiated at the first range `(1, 2)`. -/
theorem C3_batch_partition_witness :
    ((run (fun _ => PageOutcome.empty) 5 2 (fun _ => none)).2.map BatchEvent.range)
        = batchRanges 5 2
    ∧ (batchRanges 5 2).flatMap (fun r => List.range' r.1 (r.2 + 1 - r.1))
        = List.range' 1 5
    ∧ List.Chain' (fun r s => s.1 = r.2 + 1) (batchRanges 5 2)
    ∧ ((1, 2) : Nat × Nat).2 = min (((1, 2) : Nat × Nat).1 + 2 - 1) 5
    ∧ (((1, 2) : Nat × Nat).2 + 1 - ((1, 2) : Nat × Nat).1 = 2
        ∨ ((1, 2) : Nat × Nat).2 = 5) :=
  ⟨(C3_batch_partition 4 1 (fun _ => PageOutcome.empty) (fun _ => none)).1,
   (C3_batch_partition 4 1 (fun _ => PageOutcome.empty) (fun _ => none)).2.1,
   (C3_batch_partition 4 1 (fun _ => PageOutcome.empty) (fun _ => none)).2.2.1,
   ((C3_batch_partition 4 1 (fun _ => PageOutcome.empty) (fun _ => none)).2.2.2
      (1, 2) (by decide)).1,
   ((C3_batch_partition 4 1 (fun _ => PageOutcome.empty) (fun _ => none)).2.2.2
      (1, 2) (by decide)).2⟩

/-- C10: a batch file just written by `write_batch` is complete exactly when
the written row list is non-empty, so a batch whose pages produced zero
items is persisted as a header-only file that `is_complete` rejects; and
consequently a re-run whose cursor reaches that batch (total pages
`s + k ≥ s`, batch size `b + 1 ≥ 1`) does not skip it: its first loop
iteration processes the batch, re-fetching the full page range. -/
theorem C10_empty_batch_incomplete (fs fs2 : FS) (p : String) (R : List Row)
    (oracle : Nat → PageOutcome) (s k b : Nat) :
    csv_manager.is_complete (csv_manager.write_batch fs p R) p = !R.isEmpty
    ∧ (runFuel oracle (s + k) (b + 1) (s + k + 1) s
          (csv_manager.write_batch fs2
            (csv_manager.batch_csv_path PAGINATED_DIR s (min (s + (b + 1) - 1) (s + k)))
            [])).2.head?
        = some ⟨(s, min (s + (b + 1) - 1) (s + k)), false,
            collectPages oracle
              (List.range' s (min (s + (b + 1) - 1) (s + k) + 1 - s))⟩ := by
  constructor
  · cases R <;> simp [CsvManager.is_complete, CsvManager.write_batch]
  · have hs : s ≤ s + k := Nat.le_add_right s k
    have hE : s + (b + 1) - 1 = s + b := by omega
    rw [hE]
    have hincomplete : csv_manager.is_complete
        (csv_manager.write_batch fs2
          (csv_manager.batch_csv_path PAGINATED_DIR s (min (s + b) (s + k))) [])
        (csv_manager.batch_csv_path PAGINATED_DIR s (min (s + b) (s + k)))
        = false := by
      simp [CsvManager.is_complete, CsvManager.write_batch]
    simp [runFuel, hs, hE, hincomplete]

/-- A `<meta itemprop="ratingValue">` tag: present in the markup, with an
optional `content` attribute (`rating_tag.has_attr("content")`). -/
structure RatingTag where
  content : Option String
deriving DecidableEq

/-- A `span.brewery-title img.flag` tag with optional `title` and `alt`
attributes (`flag_tag.get("title", flag_tag.get("alt", "Unknown"))`). -/
structure FlagTag where
  title : Option String
  alt : Option String
deriving DecidableEq

/-- One `div.beer-row` item container as `Beer.from_html` reads it: each field
is the text/attribute of the sub-element selected by the corresponding
selector, or `none` when that sub-element is absent. -/
structure BeerHtml where
  nameTag : Option String
  breweryTag : Option String
  flagTag : Option FlagTag
  priceTag : Option String
  ratingTag : Option RatingTag
  abvTag : Option String
  styleTag : Option String
  beerUrlTag : Option String
  imageTag : Option String
deriving DecidableEq

/-- The `Beer` dataclass fields filled in by `Beer.from_html`
(`src/entities/beer.py`); `image_url` keeps the `None`-or-string typing of
the source (`image_tag["src"] if image_tag else None`). -/
structure Beer where
  name : String
  brewery : String
  country : String
  price : String
  rating : String
  abv : String
  style : String
  beer_url : String
  image_url : Option String
deriving DecidableEq

/-- Method `Beer.from_html`: extract every field independently, defaulting to the
`"N/A"` / `"Unknown"` sentinels when a sub-element is absent; return `None`
when the rating is missing, empty, or the string `"N/A"`
(`if not rating or rating == "N/A": return None`). -/
def Beer.from_html (beer : BeerHtml) : Option Beer :=
  let name := beer.nameTag.getD "N/A"
  let brewery := beer.breweryTag.getD "N/A"
  let country :=
    match beer.flagTag with
    | none => "Unknown"
    | some flag => flag.title.getD (flag.alt.getD "Unknown")
  let price := beer.priceTag.getD "N/A"
  let rating : Option String :=
    match beer.ratingTag with
    | some tag => tag.content
    | none => none
  match rating with
  | none => none
  | some r =>
    if r = "" ∨ r = "N/A" then none
    else
      some
        { name := name, brewery := brewery, country := country, price := price,
          rating := r,
          abv := beer.abvTag.getD "N/A",
          style := beer.styleTag.getD "N/A",
          beer_url := beer.beerUrlTag.getD "N/A",
          image_url := beer.imageTag }

/-- Whether a container carries a parseable rating: a rating tag with a
`content` attribute whose value is neither empty nor `"N/A"` (the
complement of the source's `if not rating or rating == "N/A"` skip). -/
def hasParseableRating (beer : BeerHtml) : Bool :=
  match beer.ratingTag with
  | none => false
  | some tag =>
    match tag.content with
    | none => false
    | some r => decide (¬(r = "" ∨ r = "N/A"))

/-- The per-page item extraction as consumed by both pipeline loops: every
container is parsed and containers for which `from_html` returns `None`
are skipped (`if not beer_obj: continue` / the flat variant's `continue`). -/
def fetchItems (containers : List BeerHtml) : List Beer :=
  containers.filterMap Beer.from_html

/-- Helper: `from_html` yields an item exactly when the container has a
parseable rating; no other field influences the decision. -/
lemma from_html_isSome (c : BeerHtml) :
    (Beer.from_html c).isSome = hasParseableRating c := by
  rcases hr : c.ratingTag with _ | tag
  · simp [Beer.from_html, hasParseableRating, hr]
  · rcases hc : tag.content with _ | r
    · simp [Beer.from_html, hasParseableRating, hr, hc]
    · by_cases h1 : r = "" <;> by_cases h2 : r = "N/A" <;>
        simp [Beer.from_html, hasParseableRating, hr, hc, h1, h2]

/-- C5: `from_html` returns an item iff the container carries a valid
(present, non-empty, non-`"N/A"`) rating; a parsed item appears in a
page's result list iff it came from some container of that page (so
containers without a rating never appear); and a container with a valid
rating and every other sub-element missing still yields an item, with all
the other fields defaulted to their sentinels. -/
theorem C5_rating_filter (c : BeerHtml) (cs : List BeerHtml) (b : Beer) :
    (Beer.from_html c).isSome = hasParseableRating c
    ∧ (b ∈ fetchItems cs ↔ ∃ cHtml ∈ cs, Beer.from_html cHtml = some b)
    ∧ Beer.from_html ⟨none, none, none, none, some ⟨some "4.2"⟩, none, none, none, none⟩
        = some ⟨"N/A", "N/A", "Unknown", "N/A", "4.2", "N/A", "N/A", "N/A", none⟩ := by
  refine ⟨from_html_isSome c, ?_, ?_⟩
  · simp [fetchItems, List.mem_filterMap]
  · decide

/-- Methods `ImageManager.has_image` and `Beer.has_image`: Python truthiness of the
image URL (`bool(self.image_url)`): false for `None` and for `""`. -/
def hasImage : Option String → Bool
  | none => false
  | some s => decide (¬s = "")

/-- Method `ImageManager.image_filename`: the final `/`-separated segment of the
image URL, or `"N/A"` when the URL is falsy. -/
def imageFilename : Option String → String
  | none => "N/A"
  | some u => if u = "" then "N/A" else (u.splitOn "/").getLastD ""

/-- The spreadsheet hyperlink formula built for the detail URL:
`=HYPERLINK("{url}", "Beer Page")`, or `"N/A"` when the URL is the
sentinel. -/
def linkFormula (url : String) : String :=
  if url = "N/A" then "N/A"
  else "=HYPERLINK(\"" ++ url ++ "\", \"Beer Page\")"

/-- The fixed 12-column output record both loops append to the batch buffer:
name, brewery, price, rating, abv, style, image file, link formula,
country, label colour, text colour, analysis error. -/
def assembleRow (b : Beer)
    (image_file label_color text_color analysis_error : String) : Row :=
  [b.name, b.brewery, b.price, b.rating, b.abv, b.style, image_file,
   linkFormula b.beer_url, b.country, label_color, text_color, analysis_error]

/-- The analysis dictionary consumed by `analysis.get("label_color", "N/A")`
etc.: each key optionally present. -/
structure AnalysisDict where
  label_color : Option String
  text_color : Option String
  error : Option String
deriving DecidableEq

/-- Outcome of the per-item download-and-analyse `try` block: either the
analysis call returned a dictionary, or some step raised an exception
whose text `str(e)` is `err` (caught by the per-item `except`). -/
inductive ImageStepOutcome where
  | success (analysis : AnalysisDict)
  | failure (err : String)
deriving DecidableEq

/-- The per-item record construction of both loops: fields start at the
`"N/A"` / `""` sentinels; when the item has an image URL, a successful
analysis fills in the image filename, colours and error text from the
dictionary, while a caught exception leaves the sentinels and stores the
error text; the row is appended unconditionally afterwards. -/
def itemRow (b : Beer) (outcome : ImageStepOutcome) : Row :=
  if hasImage b.image_url then
    match outcome with
    | .success a =>
        assembleRow b (imageFilename b.image_url) (a.label_color.getD "N/A")
          (a.text_color.getD "N/A") (a.error.getD "")
    | .failure e => assembleRow b "N/A" "N/A" "N/A" e
  else
    assembleRow b "N/A" "N/A" "N/A" ""

/-- The rows a page's containers contribute to the batch buffer, given a
per-item image/analysis outcome: items failing the rating filter are
skipped, every other item contributes exactly one row. -/
def processContainers (outcomeOf : Beer → ImageStepOutcome)
    (containers : List BeerHtml) : List Row :=
  containers.filterMap
    (fun c => (Beer.from_html c).map (fun b => itemRow b (outcomeOf b)))

/-- Helper: the number of emitted rows equals the number of containers that
pass the rating filter, whatever the image/analysis outcomes are. -/
lemma processContainers_length (outcomeOf : Beer → ImageStepOutcome) :
    ∀ containers : List BeerHtml,
      (processContainers outcomeOf containers).length
        = (containers.filter hasParseableRating).length := by
  intro containers
  induction containers with
  | nil => simp [processContainers]
  | cons c cs ih =>
    have hiso := from_html_isSome c
    rcases hfh : Beer.from_html c with _ | bb <;> rw [hfh] at hiso
    · rw [processContainers, List.filterMap_cons, hfh, List.filter_cons,
        ← hiso]
      simpa [processContainers] using ih
    · rw [processContainers, List.filterMap_cons, hfh, List.filter_cons,
        ← hiso]
      simpa [processContainers] using ih

/-- C7: an image-download or analysis failure never drops an item's record:
the batch buffer holds exactly one row per rating-passing container, and
that count is identical under any two per-item outcome assignments; on a
caught failure the emitted row carries the `"N/A"` sentinels for image
file, label colour and text colour and the caught error's text in the
analysis-error column (the error column stays `""` only for items with no
image URL, where the analysis step is skipped). -/
theorem C7_failure_never_drops (containers : List BeerHtml)
    (outcomeOf outcomeOfAlt : Beer → ImageStepOutcome) (b : Beer) (e : String) :
    (processContainers outcomeOf containers).length
        = (containers.filter hasParseableRating).length
    ∧ (processContainers outcomeOf containers).length
        = (processContainers outcomeOfAlt containers).length
    ∧ itemRow b (.failure e)
        = assembleRow b "N/A" "N/A" "N/A" (if hasImage b.image_url then e else "") := by
  refine ⟨processContainers_length outcomeOf containers, ?_, ?_⟩
  · rw [processContainers_length outcomeOf containers,
      processContainers_length outcomeOfAlt containers]
  · by_cases h : hasImage b.image_url = true <;> simp [itemRow, h]

/-- Local image storage: whether a file exists at each path. -/
abbrev ImgFS := String → Bool

/-- Method `ImageManager.remove_image` from `src/entities/image_manager.py`: delete the
file only when the path is truthy and the file exists
(`if image_path and os.path.exists(image_path): os.remove(image_path)`). -/
def remove_image (fs : ImgFS) (path : String) : ImgFS :=
  if ¬path = "" ∧ fs path = true then
    fun q => if q = path then false else fs q
  else fs

/-- The per-item image lifecycle of `src/core/scrape_and_analyze.py` `run`,
entered after `download_image` wrote the file at `path`: the analysis step
either returns (and `analyze_image` runs `os.remove(image_path)` right
after the analysis call) or raises (caught by the `except`, skipping that
`os.remove`); in both cases the `finally` block then runs
`ImageManager.remove_image(image_path)`. The resulting file state is
returned. -/
def coreImageStep (fs : ImgFS) (path : String) (analysisRaised : Bool) : ImgFS :=
  let fsDownloaded : ImgFS := fun q => if q = path then true else fs q
  if analysisRaised then
    remove_image fsDownloaded path
  else
    remove_image (fun q => if q = path then false else fsDownloaded q) path

/-- The per-item image lifecycle of `src/scrape_and_analyze.py`
`run_scraping_and_analysis`, entered after the download wrote the file at
`path`: `os.remove(image_path)` sits inside the `try`, after the analysis
call, and there is no `finally`; if the analysis raises, the `except` only
records the error text and the removal never runs. -/
def flatImageStep (fs : ImgFS) (path : String) (analysisRaised : Bool) : ImgFS :=
  let fsDownloaded : ImgFS := fun q => if q = path then true else fs q
  if analysisRaised then fsDownloaded
  else fun q => if q = path then false else fsDownloaded q

/-- Helper: paths produced by `os.path.join` are never the empty string. -/
lemma joinPath_ne_empty (dir name : String) : ¬joinPath dir name = "" := by
  intro h
  have hlen := congrArg String.length h
  rw [joinPath, String.length_append, String.length_append] at hlen
  have h1 : ("/" : String).length = 1 := rfl
  have h2 : ("" : String).length = 0 := rfl
  rw [h1, h2] at hlen
  omega

/-- C6 counterexample: in `src/scrape_and_analyze.py`, when the analysis step
raises after a successful download, the downloaded file is still on disk
when the item's iteration finishes — the claimed guaranteed deletion fails
on the analysis-failure exit path of this cited loop. -/
theorem C6_counterexample :
    flatImageStep (fun _ => false) (joinPath OUTPUT_DIR "beer1.png") true
      (joinPath OUTPUT_DIR "beer1.png") = true := by
  decide

/-- C6 (amended): in the core pipeline (`src/core/scrape_and_analyze.py`),
whose `finally` block calls `ImageManager.remove_image`, the downloaded
file is gone at the end of the item's iteration on every exit path —
both when the analysis returned and when it raised; in the flat variant
(`src/scrape_and_analyze.py`) the deletion holds only on the
analysis-success path, since an analysis exception skips the in-`try`
`os.remove`. -/
theorem C6_deletion_amended (fs : ImgFS) (name : String) (analysisRaised : Bool) :
    coreImageStep fs (joinPath BEER_IMAGE_DIR name) analysisRaised
        (joinPath BEER_IMAGE_DIR name) = false
    ∧ flatImageStep fs (joinPath OUTPUT_DIR name) false
        (joinPath OUTPUT_DIR name) = false := by
  constructor
  · have hne := joinPath_ne_empty BEER_IMAGE_DIR name
    cases analysisRaised <;> simp [coreImageStep, remove_image, hne]
  · simp [flatImageStep]

/-- Substring containment on character lists, with Python's `in` semantics:
the empty pattern is contained everywhere, otherwise the pattern must
occur as a contiguous run. -/
def containsSub : List Char → List Char → Bool
  | _, [] => true
  | [], _ :: _ => false
  | s@(_ :: rest), pat => pat.isPrefixOf s || containsSub rest pat

/-- Test `color in content_lower` for a palette entry. -/
def strContains (content : List Char) (pat : String) : Bool :=
  containsSub content pat.data

/-- The fixed palette scanned by `create_fallback_analysis`, in source order
(identical in `src/llava_analysis.py` and `src/core/llava_analysis.py`). -/
def COLORS : List String :=
  ["black", "white", "red", "blue", "green", "yellow", "orange", "purple",
   "brown", "gray", "gold", "silver", "pink", "beige", "cream", "navy",
   "maroon", "olive", "teal", "cyan", "magenta", "lime", "indigo", "violet",
   "tan", "khaki", "burgundy", "crimson", "emerald", "turquoise", "amber",
   "copper", "bronze"]

/-- The result dictionary of `create_fallback_analysis`. -/
structure FallbackAnalysis where
  label_color : String
  text_color : String
  raw_response : String
deriving DecidableEq

/-- The scanning loop of `create_fallback_analysis`: iterate over the palette
in list order; a matching colour fills `label_color` first (and the loop
continues), the next matching colour fills `text_color` and breaks. -/
def scanColors (content : List Char) :
    List String → String → String → String × String
  | [], label_color, text_color => (label_color, text_color)
  | c :: rest, label_color, text_color =>
    if strContains content c then
      if label_color = "unknown" then scanColors content rest c text_color
      else if text_color = "unknown" then (label_color, c)
      else scanColors content rest label_color text_color
    else scanColors content rest label_color text_color

/-- Function `create_fallback_analysis`: lower-case the raw response, scan it for
palette colours starting from `label_color = text_color = "unknown"`, and
return the two colours plus the first 500 characters of the raw response. -/
def create_fallback_analysis (content : String) : FallbackAnalysis :=
  let content_lower := content.data.map Char.toLower
  let scanned := scanColors content_lower COLORS "unknown" "unknown"
  { label_color := scanned.1, text_color := scanned.2,
    raw_response := content.take 500 }

/-- The palette colours occurring in the lower-cased response, in palette
order. -/
def matchedColors (content : String) : List String :=
  COLORS.filter (fun c => strContains (content.data.map Char.toLower) c)

/-- Helper: once `label_color` is set to a non-`"unknown"` colour, the scan
returns it together with the first remaining palette colour found. -/
lemma scanColors_label_set (content : List Char) :
    ∀ (cs : List String) (label_color : String), ¬label_color = "unknown" →
      scanColors content cs label_color "unknown"
        = (label_color, (cs.filter (strContains content)).headD "unknown") := by
  intro cs
  induction cs with
  | nil => intro l hl; simp [scanColors]
  | cons c rest ih =>
    intro l hl
    by_cases hc : strContains content c = true
    · rw [scanColors, if_pos hc, if_neg hl, if_pos rfl, List.filter_cons,
        if_pos hc, List.headD_cons]
    · rw [scanColors, if_neg hc, List.filter_cons, if_neg hc, ih l hl]

/-- Helper: from the initial all-`"unknown"` state, the scan returns the
first and second palette-order matches (palette entries are never the
literal `"unknown"`). -/
lemma scanColors_from_start (content : List Char) :
    ∀ cs : List String, (∀ c ∈ cs, ¬c = "unknown") →
      scanColors content cs "unknown" "unknown"
        = ((cs.filter (strContains content)).headD "unknown",
           ((cs.filter (strContains content)).drop 1).headD "unknown") := by
  intro cs
  induction cs with
  | nil => intro hcs; simp [scanColors]
  | cons c rest ih =>
    intro hcs
    have hc0 : ¬c = "unknown" := hcs c (List.mem_cons_self c rest)
    by_cases hc : strContains content c = true
    · rw [scanColors, if_pos hc, if_pos rfl,
        scanColors_label_set content rest c hc0, List.filter_cons, if_pos hc,
        List.headD_cons, List.drop_one, List.tail_cons]
    · rw [scanColors, if_neg hc, List.filter_cons, if_neg hc,
        ih (fun x hx => hcs x (List.mem_cons_of_mem c hx))]

/-- C8 counterexample: for a response containing `"amber"` and later
`"cream"` and no other palette colour, the fallback parser yields
`label_color = "cream"` and `text_color = "amber"` — the reverse of the
claimed assignment, because the scan runs in palette-list order (where
`"cream"` precedes `"amber"`), not in text order. -/
theorem C8_counterexample :
    (create_fallback_analysis "the label is amber and the text is cream").label_color
        = "cream"
    ∧ (create_fallback_analysis "the label is amber and the text is cream").text_color
        = "amber"
    ∧ ¬((create_fallback_analysis "the label is amber and the text is cream").label_color
          = "amber"
        ∧ (create_fallback_analysis "the label is amber and the text is cream").text_color
          = "cream") := by
  refine ⟨by decide, by decide, ?_⟩
  intro h
  exact absurd h.1 (by decide)

/-- C8 (amended): when no structured JSON block decodes, the fallback parser
assigns as `label_color` the first colour in the fixed palette's LIST
order that occurs in the lower-cased response, and as `text_color` the
next palette-order colour that occurs — not the first and second matches
in text order; each field is left `"unknown"` when fewer matches exist.
In particular a response containing the word `"amber"` and later
`"cream"` (and no other palette colour) yields `label_color = "cream"`
and `text_color = "amber"`, since `"cream"` precedes `"amber"` in the
palette list. -/
theorem C8_fallback_amended (content : String) :
    (create_fallback_analysis content).label_color
        = (matchedColors content).headD "unknown"
    ∧ (create_fallback_analysis content).text_color
        = ((matchedColors content).drop 1).headD "unknown"
    ∧ (create_fallback_analysis "the label is amber and the text is cream").label_color
        = "cream"
    ∧ (create_fallback_analysis "the label is amber and the text is cream").text_color
        = "amber" := by
  have hnu : ∀ c ∈ COLORS, ¬c = "unknown" := by decide
  have h := scanColors_from_start (content.data.map Char.toLower) COLORS hnu
  refine ⟨?_, ?_, by decide, by decide⟩
  · rw [create_fallback_analysis]
    simp only [h]
    rfl
  · rw [create_fallback_analysis]
    simp only [h]
    rfl

/-- Constant `MAX_RETRIES` from both analysis modules. -/
def MAX_RETRIES : Nat := 3

/-- Constant `RETRY_DELAY` (seconds slept between attempts) from both analysis
modules. -/
def RETRY_DELAY : Nat := 2

/-- What one `requests.post` attempt against the generate endpoint produces:
either a raised request-level exception with text `msg`, or a completed
HTTP response with a status code and a body. The body handling of a
200-status response (JSON extraction with fallback parsing) always
returns a dictionary without re-raising, so it is abstracted here as the
body itself. -/
inductive AttemptOutcome where
  | exn (msg : String)
  | resp (status : Nat) (content : String)
deriving DecidableEq

/-- A request-level failure: a raised exception or a non-200 status. -/
def isFailure : AttemptOutcome → Bool
  | .exn _ => true
  | .resp status _ => decide (¬status = 200)

/-- The dictionary shapes `analyze_beer_with_llava` can return: a parsed (or
fallback-parsed) analysis for a 200 response, the flat variant's
`{"error": msg}` dictionaries, or the core variant's
`{"label_color": "N/A", "text_color": "N/A", "error": msg}` dictionary. -/
inductive LlavaResult where
  | parsed (content : String)
  | errorOnly (msg : String)
  | errorWithNA (label_color text_color msg : String)
deriving DecidableEq

/-- Result of an analysis call together with how many HTTP attempts were made
and how many inter-attempt delays (`time.sleep(RETRY_DELAY)`) were slept. -/
structure RetryTrace where
  result : LlavaResult
  attempts : Nat
  sleeps : Nat
deriving DecidableEq

/-- The `for attempt in range(MAX_RETRIES)` loop of
`src/llava_analysis.py` `analyze_beer_with_llava`: a 200 response returns
its (possibly fallback-parsed) dictionary at once; a non-200 status or a
caught `RequestException` sleeps and retries while `attempt <
MAX_RETRIES - 1`, and on the last attempt returns an explicit error
dictionary; the `return` after the loop is unreachable. `rem` is the
number of loop iterations remaining, `MAX_RETRIES - attempt`. -/
def llavaAttemptLoop (oracle : Nat → AttemptOutcome) : Nat → Nat → RetryTrace
  | _, 0 => ⟨.errorOnly "Max retries exceeded", 0, 0⟩
  | attempt, rem + 1 =>
    match oracle attempt with
    | .resp status content =>
      if status = 200 then ⟨.parsed content, 1, 0⟩
      else if attempt < MAX_RETRIES - 1 then
        let t := llavaAttemptLoop oracle (attempt + 1) rem
        ⟨t.result, t.attempts + 1, t.sleeps + 1⟩
      else ⟨.errorOnly ("API error: " ++ toString status), 1, 0⟩
    | .exn msg =>
      if attempt < MAX_RETRIES - 1 then
        let t := llavaAttemptLoop oracle (attempt + 1) rem
        ⟨t.result, t.attempts + 1, t.sleeps + 1⟩
      else ⟨.errorOnly ("Request error: " ++ msg), 1, 0⟩

/-- Function `analyze_beer_with_llava` from `src/llava_analysis.py`: run the attempt
loop from attempt 0. -/
def analyze_beer_with_llava (oracle : Nat → AttemptOutcome) : RetryTrace :=
  llavaAttemptLoop oracle 0 MAX_RETRIES

/-- Function `analyze_beer_with_llava` from `src/core/llava_analysis.py`: a single
`try` with no loop — one `requests.post` call whose response body is
parsed regardless of status, and a caught exception returns
`{"label_color": "N/A", "text_color": "N/A", "error": str(e)}`
immediately. -/
def analyze_beer_with_llava_core (oracle : Nat → AttemptOutcome) : RetryTrace :=
  match oracle 0 with
  | .resp _ content => ⟨.parsed content, 1, 0⟩
  | .exn msg => ⟨.errorWithNA "N/A" "N/A" msg, 1, 0⟩

/-- Helper: when every remaining attempt fails at the request level, the flat
retry loop uses all remaining attempts, sleeps between consecutive ones,
and ends in an explicit error dictionary. -/
lemma llavaAttemptLoop_all_fail (oracle : Nat → AttemptOutcome) :
    ∀ (rem attempt : Nat), 1 ≤ rem → attempt + rem = MAX_RETRIES →
      (∀ i, i < MAX_RETRIES → isFailure (oracle i) = true) →
      (llavaAttemptLoop oracle attempt rem).attempts = rem
      ∧ (llavaAttemptLoop oracle attempt rem).sleeps = rem - 1
      ∧ ∃ m, (llavaAttemptLoop oracle attempt rem).result = LlavaResult.errorOnly m := by
  intro rem
  induction rem with
  | zero => intro attempt h1 _ _; omega
  | succ rem ih =>
    intro attempt h1 h2 hfail
    have hf := hfail attempt (by omega)
    rcases ho : oracle attempt with msg | ⟨status, content⟩
    · by_cases hrem : 1 ≤ rem
      · have hlt : attempt < MAX_RETRIES - 1 := by omega
        obtain ⟨ha, hs, hm⟩ := ih (attempt + 1) hrem (by omega) hfail
        obtain ⟨m, hm⟩ := hm
        simp only [llavaAttemptLoop, ho]
        rw [if_pos hlt]
        refine ⟨?_, ?_, ⟨m, ?_⟩⟩
        · show (llavaAttemptLoop oracle (attempt + 1) rem).attempts + 1 = rem + 1
          omega
        · show (llavaAttemptLoop oracle (attempt + 1) rem).sleeps + 1 = rem + 1 - 1
          omega
        · show (llavaAttemptLoop oracle (attempt + 1) rem).result
            = LlavaResult.errorOnly m
          exact hm
      · have hnlt : ¬attempt < MAX_RETRIES - 1 := by omega
        simp only [llavaAttemptLoop, ho]
        rw [if_neg hnlt]
        refine ⟨?_, ?_, ⟨"Request error: " ++ msg, rfl⟩⟩
        · show 1 = rem + 1
          omega
        · show 0 = rem + 1 - 1
          omega
    · rw [ho] at hf
      have hstatus : ¬status = 200 := by simpa [isFailure] using hf
      by_cases hrem : 1 ≤ rem
      · have hlt : attempt < MAX_RETRIES - 1 := by omega
        obtain ⟨ha, hs, hm⟩ := ih (attempt + 1) hrem (by omega) hfail
        obtain ⟨m, hm⟩ := hm
        simp only [llavaAttemptLoop, ho]
        rw [if_neg hstatus, if_pos hlt]
        refine ⟨?_, ?_, ⟨m, ?_⟩⟩
        · show (llavaAttemptLoop oracle (attempt + 1) rem).attempts + 1 = rem + 1
          omega
        · show (llavaAttemptLoop oracle (attempt + 1) rem).sleeps + 1 = rem + 1 - 1
          omega
        · show (llavaAttemptLoop oracle (attempt + 1) rem).result
            = LlavaResult.errorOnly m
          exact hm
      · have hnlt : ¬attempt < MAX_RETRIES - 1 := by omega
        simp only [llavaAttemptLoop, ho]
        rw [if_neg hstatus, if_neg hnlt]
        refine ⟨?_, ?_, ⟨"API error: " ++ toString status, rfl⟩⟩
        · show 1 = rem + 1
          omega
        · show 0 = rem + 1 - 1
          omega

/-- C9 counterexample: in `src/core/llava_analysis.py`, a request-level
failure on the first attempt is not retried at all: the function returns
the error dictionary after a single attempt even though `MAX_RETRIES = 3`
and a second attempt would have succeeded (the oracle answers 200 from
attempt 1 on), contradicting the claimed retry-up-to-a-fixed-count
behaviour for this cited `analyze_beer_with_llava`. -/
theorem C9_counterexample :
    analyze_beer_with_llava_core
        (fun i => if i = 0 then AttemptOutcome.exn "boom"
          else AttemptOutcome.resp 200 "ok")
      = ⟨LlavaResult.errorWithNA "N/A" "N/A" "boom", 1, 0⟩
    ∧ (fun i => if i = 0 then AttemptOutcome.exn "boom"
          else AttemptOutcome.resp 200 "ok") 1 = AttemptOutcome.resp 200 "ok"
    ∧ 1 < MAX_RETRIES := by
  refine ⟨rfl, rfl, by decide⟩

/-- C9 (amended): in `src/llava_analysis.py`, request-level failures are
retried up to `MAX_RETRIES = 3` attempts with a fixed
`RETRY_DELAY = 2`-second delay between consecutive attempts, and after
exhausting the retries the function returns a dictionary carrying an
explicit error entry rather than raising; the variant in
`src/core/llava_analysis.py`, by contrast, makes exactly one attempt and
on a request-level failure returns its error dictionary immediately,
without retrying — it shares only the return-an-error-result-rather-
than-raise behaviour. -/
theorem C9_retry_amended (oracle other : Nat → AttemptOutcome) (msg : String)
    (hfail : ∀ i, i < MAX_RETRIES → isFailure (oracle i) = true) :
    (analyze_beer_with_llava oracle).attempts = MAX_RETRIES
    ∧ (analyze_beer_with_llava oracle).sleeps = MAX_RETRIES - 1
    ∧ (∃ m, (analyze_beer_with_llava oracle).result = LlavaResult.errorOnly m)
    ∧ RETRY_DELAY = 2
    ∧ analyze_beer_with_llava_core
          (fun i => if i = 0 then AttemptOutcome.exn msg else other i)
        = ⟨LlavaResult.errorWithNA "N/A" "N/A" msg, 1, 0⟩ := by
  obtain ⟨ha, hs, hm⟩ :=
    llavaAttemptLoop_all_fail oracle MAX_RETRIES 0 (by decide) rfl hfail
  exact ⟨ha, hs, hm, rfl, rfl⟩

/-- C9 witness: the amended retry behaviour at a concrete oracle whose every
attempt raises. -/
theorem C9_retry_witness :
    (analyze_beer_with_llava (fun _ => AttemptOutcome.exn "boom")).attempts
        = MAX_RETRIES
    ∧ (analyze_beer_with_llava (fun _ => AttemptOutcome.exn "boom")).sleeps
        = MAX_RETRIES - 1
    ∧ (∃ m, (analyze_beer_with_llava (fun _ => AttemptOutcome.exn "boom")).result
          = LlavaResult.errorOnly m)
    ∧ RETRY_DELAY = 2
    ∧ analyze_beer_with_llava_core
          (fun i => if i = 0 then AttemptOutcome.exn "down"
            else (fun _ => AttemptOutcome.resp 200 "ok") i)
        = ⟨LlavaResult.errorWithNA "N/A" "N/A" "down", 1, 0⟩ :=
  C9_retry_amended (fun _ => AttemptOutcome.exn "boom")
    (fun _ => AttemptOutcome.resp 200 "ok") "down" (fun i _ => rfl)

end Brewtiful
